import Mathlib

/-!
Verification of `src/ingest_work_program.py`: a one-shot ETL script that
paginates an ArcGIS FeatureServer endpoint (`fetch_all`), materializes the
accumulated GeoJSON features into a GeoDataFrame tagged CRS EPSG:4326, and
then filters the table to rows with non-empty geometry and
`LOC_ERROR == "NO ERROR"`.

The HTTP environment is modelled as a finite list of mocked exchanges, one
consumed per request issued by the loop, exactly mirroring how the Python
loop issues one `requests.get` per iteration.
-/

namespace IngestWorkProgram

/-- A shapely geometry as far as the script observes it: the script only ever
asks `is_empty`, so we model geometries by an emptiness flag plus a point
payload that distinguishes distinct non-empty geometries. -/
inductive Geometry where
  | emptyGeom : Geometry
  | point : Int → Int → Geometry
  deriving DecidableEq, Repr

/-- `shapely` emptiness test on a single geometry. -/
def Geometry.isEmpty : Geometry → Bool
  | .emptyGeom => true
  | .point _ _ => false

/-- One GeoJSON feature as a table row: a geometry (GeoJSON allows
`"geometry": null`, modelled as `none`) and the attribute properties as a
key/value association list (`LOC_ERROR` among them; a key absent from a row
corresponds to a NaN cell in the pandas column). -/
structure Feature where
  geometry : Option Geometry
  props : List (String × String)
  deriving DecidableEq, Repr

/-- `GeoSeries.is_empty` on one cell. geopandas/shapely semantics: a missing
(null/None) geometry is NOT empty — `is_empty` returns `False` for missing
values (geopandas "missing and empty geometries" semantics), so only a
present-and-empty geometry tests true. -/
def geomIsEmpty : Option Geometry → Bool
  | none => false
  | some g => g.isEmpty

/-- One entry of the JSON `features` array: either a well-formed GeoJSON
feature, or an entry `GeoDataFrame.from_features` cannot handle (e.g. a
non-dict entry or a feature missing its `geometry` key), on which the table
construction raises. -/
inductive FeatureJson where
  | valid : Feature → FeatureJson
  | invalid : FeatureJson
  deriving DecidableEq, Repr

/-- A parsed JSON response body, as far as the script reads it:
`data.get("features", [])` — the `features` key may be absent (`none`). -/
structure Body where
  features : Option (List FeatureJson)
  deriving DecidableEq, Repr

/-- One mocked HTTP exchange: either the request times out
(`requests.get(..., timeout=60)` raises `requests.Timeout`), or a response
arrives with a status code and a body; `body = none` models a 2xx body that
is not valid JSON, so `r.json()` raises. -/
inductive HttpResult where
  | timeout : HttpResult
  | response : Nat → Option Body → HttpResult
  deriving DecidableEq, Repr

/-- The exceptions the script can die with, as `fetch_all` surfaces them. -/
inductive RunError where
  | httpError : Nat → RunError
  | timeoutError : RunError
  | jsonDecodeError : RunError
  | constructionError : RunError
  | noMoreResponses : RunError
  deriving DecidableEq, Repr

/-- The materialized geospatial table: the row list (insertion order) and the
CRS tag. -/
structure GeoDataFrame where
  rows : List Feature
  crs : String
  deriving DecidableEq, Repr

/-- `requests.Response.raise_for_status`: raises `HTTPError` exactly when the
status code is a 4xx or 5xx client/server error (non-success), i.e. when
`400 <= status_code < 600`; any other status raises nothing. -/
def raise_for_status (status : Nat) : Bool :=
  decide (400 ≤ status) && decide (status < 600)

/-- The `while True` pagination loop of `fetch_all`, one constructor of the
mocked response list consumed per `requests.get`. State mirrors the Python
locals: the `features` accumulator, the running `offset`, plus a count of
requests issued so far. On success it returns the accumulator together with
the total number of requests made. An exhausted mock (`[]`) means the loop
would issue a request the environment does not answer. -/
def fetchLoop (page_size : Nat) :
    List HttpResult → List FeatureJson → Nat → Nat →
    Except RunError (List FeatureJson × Nat)
  | [], _, _, _ => .error .noMoreResponses
  | .timeout :: _, _, _, _ => .error .timeoutError
  | .response status body :: rest, features, offset, reqs =>
    if raise_for_status status then .error (.httpError status)
    else
      match body with
      | none => .error .jsonDecodeError
      | some data =>
        let batch := data.features.getD []
        if batch.isEmpty then .ok (features, reqs + 1)
        else if batch.length < page_size then .ok (features ++ batch, reqs + 1)
        else fetchLoop page_size rest (features ++ batch)
               (offset + batch.length) (reqs + 1)

/-- `geopandas.GeoDataFrame.from_features`: builds one row per feature in
order, raising on the first entry it cannot interpret. -/
def from_features : List FeatureJson → Except RunError (List Feature)
  | [] => .ok []
  | .valid f :: rest => (from_features rest).map (fun l => f :: l)
  | .invalid :: _ => .error .constructionError

/-- Result of a successful `fetch_all` run: the table, plus the number of
HTTP requests the run issued (observable on the mocked environment). -/
structure FetchOutcome where
  table : GeoDataFrame
  requests : Nat
  deriving DecidableEq, Repr

/-- `fetch_all(page_size, where)` run against a mocked response sequence:
runs the pagination loop from `features = []`, `offset = 0`, then
materializes `GeoDataFrame.from_features(features, crs="EPSG:4326")`.
The `whereClause` argument is forwarded to the server verbatim inside the
query parameters and does not otherwise influence the computation. -/
def fetch_all (page_size : Nat) (whereClause : String)
    (responses : List HttpResult) : Except RunError FetchOutcome :=
  match fetchLoop page_size responses [] 0 0 with
  | .error e => .error e
  | .ok (features, reqs) =>
    match from_features features with
    | .error e => .error e
    | .ok rows => .ok ⟨⟨rows, "EPSG:4326"⟩, reqs⟩

/-- The boolean mask of the cleaning step, per row:
`(~gdf.geometry.is_empty) & (gdf["LOC_ERROR"] == "NO ERROR")`.
A row whose `LOC_ERROR` cell is missing compares unequal (NaN ≠ string). -/
def rowKept (f : Feature) : Bool :=
  (!(geomIsEmpty f.geometry)) && (f.props.lookup "LOC_ERROR" == some "NO ERROR")

/-- The inline cleaning step of `__main__`:
`gdf_mdc = gdf_mdc[(~gdf_mdc.geometry.is_empty) & (gdf_mdc["LOC_ERROR"] == "NO ERROR")].copy()`.
Boolean-mask selection keeps the masked rows in order and preserves the CRS. -/
def cleanFilter (g : GeoDataFrame) : GeoDataFrame :=
  ⟨g.rows.filter rowKept, g.crs⟩

/-- A mocked 200-OK page whose body is `{"features": fs}`. -/
def okPage (fs : List FeatureJson) : HttpResult :=
  .response 200 (some ⟨some fs⟩)

/-- A mocked 200-OK page of well-formed features. -/
def validPage (p : List Feature) : HttpResult :=
  okPage (p.map .valid)

/-- A mocked 200-OK page with an empty `features` list. -/
def emptyPage : HttpResult := okPage []

/-! Helper lemmas about the loop. -/

theorem raise_for_status_200 : raise_for_status 200 = false := rfl

/-- Unfolding one successful-page step of the loop. -/
theorem fetchLoop_okPage_step (P : Nat) (fs : List FeatureJson)
    (rest : List HttpResult) (acc : List FeatureJson) (offset reqs : Nat) :
    fetchLoop P (okPage fs :: rest) acc offset reqs =
      if fs.isEmpty then .ok (acc, reqs + 1)
      else if fs.length < P then .ok (acc ++ fs, reqs + 1)
      else fetchLoop P rest (acc ++ fs) (offset + fs.length) (reqs + 1) := by
  simp [fetchLoop, okPage, raise_for_status_200]

/-- A 200 page with an empty `features` list stops the loop at once. -/
theorem fetchLoop_emptyPage (P : Nat) (rest : List HttpResult)
    (acc : List FeatureJson) (offset reqs : Nat) :
    fetchLoop P (emptyPage :: rest) acc offset reqs = .ok (acc, reqs + 1) := by
  simp [emptyPage, fetchLoop_okPage_step]

/-- A nonempty page shorter than `page_size` stops the loop after appending. -/
theorem fetchLoop_shortPage (P : Nat) (fs : List FeatureJson)
    (rest : List HttpResult) (acc : List FeatureJson) (offset reqs : Nat)
    (hne : 0 < fs.length) (hlt : fs.length < P) :
    fetchLoop P (okPage fs :: rest) acc offset reqs =
      .ok (acc ++ fs, reqs + 1) := by
  have h1 : fs.isEmpty = false := by
    cases fs with
    | nil => simp at hne
    | cons a l => simp
  rw [fetchLoop_okPage_step, h1]
  simp [hlt]

/-- The loop walks through a block of exactly-full pages, appending each to
the accumulator, advancing the offset, and counting one request per page. -/
theorem fetchLoop_fullPages (P : Nat) (ps : List (List FeatureJson))
    (hps : ∀ p ∈ ps, p.length = P) (hP : 0 < P) (rest : List HttpResult)
    (acc : List FeatureJson) (offset reqs : Nat) :
    fetchLoop P (ps.map okPage ++ rest) acc offset reqs =
      fetchLoop P rest (acc ++ ps.flatten) (offset + ps.flatten.length)
        (reqs + ps.length) := by
  induction ps generalizing acc offset reqs with
  | nil => simp
  | cons p ps ih =>
    have hp : p.length = P := hps p (by simp)
    have h1 : p.isEmpty = false := by
      cases p with
      | nil => simp at hp; omega
      | cons a l => simp
    have h2 : ¬ p.length < P := by omega
    rw [List.map_cons, List.cons_append, fetchLoop_okPage_step, h1]
    simp only [Bool.false_eq_true, if_false, if_neg h2]
    rw [ih (fun q hq => hps q (by simp [hq]))]
    simp only [List.flatten_cons, List.length_append, List.length_cons,
      List.append_assoc, Nat.add_assoc]
    rw [Nat.add_comm 1 ps.length]

/-- `from_features` succeeds on well-formed features, in order. -/
theorem from_features_map_valid (l : List Feature) :
    from_features (l.map .valid) = .ok l := by
  induction l with
  | nil => rfl
  | cons f l ih => simp [from_features, ih, Except.map]

/-- Whenever `from_features` succeeds, the rows are exactly the accumulated
feature entries, in the same order. -/
theorem from_features_ok (fs : List FeatureJson) (rows : List Feature)
    (h : from_features fs = .ok rows) : fs = rows.map .valid := by
  induction fs generalizing rows with
  | nil =>
    simp only [from_features, Except.ok.injEq] at h
    simp [← h]
  | cons fj fs ih =>
    cases fj with
    | valid f =>
      cases h' : from_features fs with
      | error e => rw [from_features, h'] at h; simp [Except.map] at h
      | ok l =>
        rw [from_features, h'] at h
        simp only [Except.map, Except.ok.injEq] at h
        subst h
        simp [ih l h']
    | invalid => simp [from_features] at h

/-- If the loop succeeds with well-formed features, `fetch_all` returns the
CRS-tagged table of those features. -/
theorem fetch_all_of_loop (P : Nat) (w : String) (rs : List HttpResult)
    (l : List Feature) (n : Nat)
    (h : fetchLoop P rs [] 0 0 = .ok (l.map .valid, n)) :
    fetch_all P w rs = .ok ⟨⟨l, "EPSG:4326"⟩, n⟩ := by
  unfold fetch_all
  rw [h]
  simp [from_features_map_valid]

/-- If the loop fails, `fetch_all` propagates the same exception. -/
theorem fetch_all_of_loop_error (P : Nat) (w : String) (rs : List HttpResult)
    (e : RunError) (h : fetchLoop P rs [] 0 0 = .error e) :
    fetch_all P w rs = .error e := by
  unfold fetch_all
  rw [h]

theorem valid_pages_lengths (P : Nat) (ps : List (List Feature))
    (hfull : ∀ p ∈ ps, p.length = P) :
    ∀ q ∈ ps.map (List.map FeatureJson.valid), q.length = P := by
  intro q hq
  rw [List.mem_map] at hq
  obtain ⟨p, hp, rfl⟩ := hq
  simpa using hfull p hp

theorem map_validPage_eq (ps : List (List Feature)) :
    ps.map validPage = (ps.map (List.map FeatureJson.valid)).map okPage := by
  rw [List.map_map]
  rfl

theorem flatten_length_of_full {α : Type} (P : Nat) (ps : List (List α))
    (h : ∀ p ∈ ps, p.length = P) : ps.flatten.length = ps.length * P := by
  induction ps with
  | nil => simp
  | cons p ps ih =>
    simp only [List.flatten_cons, List.length_append, List.length_cons]
    rw [h p (by simp), ih (fun q hq => h q (by simp [hq]))]
    ring

/-- Running `fetch_all` against full pages ended by a short nonempty page:
it stops on the short page, never touching `rest`. -/
theorem fetch_all_pages_short (P : Nat) (w : String) (ps : List (List Feature))
    (lastPage : List Feature) (rest : List HttpResult) (hP : 0 < P)
    (hfull : ∀ p ∈ ps, p.length = P) (hne : 0 < lastPage.length)
    (hlt : lastPage.length < P) :
    fetch_all P w (ps.map validPage ++ (validPage lastPage :: rest)) =
      .ok ⟨⟨ps.flatten ++ lastPage, "EPSG:4326"⟩, ps.length + 1⟩ := by
  apply fetch_all_of_loop
  rw [map_validPage_eq,
    show validPage lastPage = okPage (lastPage.map .valid) from rfl,
    fetchLoop_fullPages P _ (valid_pages_lengths P ps hfull) hP,
    fetchLoop_shortPage _ _ _ _ _ _ (by simpa using hne) (by simpa using hlt)]
  simp [← List.map_flatten, List.map_append]

/-- Running `fetch_all` against full pages ended by an empty page:
it stops on the empty page, never touching `rest`. -/
theorem fetch_all_pages_empty (P : Nat) (w : String) (ps : List (List Feature))
    (rest : List HttpResult) (hP : 0 < P)
    (hfull : ∀ p ∈ ps, p.length = P) :
    fetch_all P w (ps.map validPage ++ (emptyPage :: rest)) =
      .ok ⟨⟨ps.flatten, "EPSG:4326"⟩, ps.length + 1⟩ := by
  apply fetch_all_of_loop
  rw [map_validPage_eq,
    fetchLoop_fullPages P _ (valid_pages_lengths P ps hfull) hP,
    fetchLoop_emptyPage]
  simp [← List.map_flatten]

/-! Sample data used in concrete instances. -/

def sampleFeature1 : Feature := ⟨some (.point 0 0), [("LOC_ERROR", "NO ERROR")]⟩

def sampleFeature2 : Feature := ⟨some (.point 5 6), []⟩

def goodRow : Feature := ⟨some (.point 1 2), [("LOC_ERROR", "NO ERROR")]⟩

def emptyGeomRow : Feature := ⟨some .emptyGeom, [("LOC_ERROR", "NO ERROR")]⟩

def locErrorRow : Feature := ⟨some (.point 3 4), [("LOC_ERROR", "LOCATION ERROR")]⟩

def nullGeomRow : Feature := ⟨none, [("LOC_ERROR", "NO ERROR")]⟩

def sampleTable : GeoDataFrame := ⟨[emptyGeomRow, goodRow, locErrorRow], "EPSG:4326"⟩

/-! Claims. -/

/-- C9: if the very first page request succeeds and returns an empty feature
list, `fetch_all` terminates after exactly one HTTP request and returns an
empty table with zero rows, CRS-tagged, for any page size and any further
mocked responses. -/
theorem fetch_all_empty_first_page (P : Nat) (w : String)
    (rest : List HttpResult) :
    fetch_all P w (emptyPage :: rest) = .ok ⟨⟨[], "EPSG:4326"⟩, 1⟩ := by
  apply fetch_all_of_loop P w _ [] 1
  rw [fetchLoop_emptyPage]
  rfl

/-- C2: for every positive page size `P`, a first page of exactly `P`
records followed by a page of 0 records makes `fetch_all` return exactly
`P` records using exactly 2 HTTP requests, regardless of any further
mocked responses (no third request is consumed). -/
theorem fetch_all_exactly_two_requests (P : Nat) (w : String)
    (page : List Feature) (rest : List HttpResult) (hP : 0 < P)
    (hlen : page.length = P) :
    ∃ out : FetchOutcome,
      fetch_all P w (validPage page :: emptyPage :: rest) = .ok out ∧
      out.table.rows = page ∧ out.table.rows.length = P ∧ out.requests = 2 := by
  have h := fetch_all_pages_empty P w [page] rest hP (by
    intro q hq
    rw [List.mem_singleton] at hq
    subst hq
    exact hlen)
  simp only [List.map_cons, List.map_nil, List.nil_append, List.cons_append,
    List.flatten_cons, List.flatten_nil, List.append_nil, List.length_cons,
    List.length_nil] at h
  exact ⟨⟨⟨page, "EPSG:4326"⟩, 2⟩, h, rfl, hlen, rfl⟩

/-- C2 witness: one page of 1 record at page size 1, then an empty page. -/
theorem fetch_all_exactly_two_requests_witness :
    ∃ out : FetchOutcome,
      fetch_all 1 "1=1" (validPage [sampleFeature1] :: emptyPage :: []) =
        .ok out ∧
      out.table.rows = [sampleFeature1] ∧ out.table.rows.length = 1 ∧
      out.requests = 2 :=
  fetch_all_exactly_two_requests 1 "1=1" [sampleFeature1] [] (by decide)
    (by decide)

/-- C1: for a mocked service serving its matching records in full pages of
size `P` ended by a short last page (when the total is not a multiple of
`P`) or by one further empty page (when it is), `fetch_all` terminates,
returns exactly the records served (so `N = ps.length * P + lastPage.length`
rows in the first case), tags the table `EPSG:4326`, and consumes no mocked
response beyond the stopping page; in particular pages of sizes
`[2000, 2000, 437]` at `P = 2000` yield exactly `4437` rows using 3
requests, with no fourth data page consumed. -/
theorem fetch_all_complete_pagination :
    (∀ (P : Nat) (w : String) (ps : List (List Feature))
        (lastPage : List Feature) (rest : List HttpResult),
        0 < P → (∀ p ∈ ps, p.length = P) → 0 < lastPage.length →
        lastPage.length < P →
        fetch_all P w ((ps ++ [lastPage]).map validPage ++ rest) =
          .ok ⟨⟨(ps ++ [lastPage]).flatten, "EPSG:4326"⟩, ps.length + 1⟩ ∧
        ((ps ++ [lastPage]).flatten).length = ps.length * P + lastPage.length)
    ∧ (∀ (P : Nat) (w : String) (ps : List (List Feature))
        (rest : List HttpResult),
        0 < P → (∀ p ∈ ps, p.length = P) →
        fetch_all P w (ps.map validPage ++ (emptyPage :: rest)) =
          .ok ⟨⟨ps.flatten, "EPSG:4326"⟩, ps.length + 1⟩ ∧
        ps.flatten.length = ps.length * P)
    ∧ (∀ (w : String) (p1 p2 p3 : List Feature) (rest : List HttpResult),
        p1.length = 2000 → p2.length = 2000 → p3.length = 437 →
        fetch_all 2000 w (validPage p1 :: validPage p2 :: validPage p3 :: rest) =
          .ok ⟨⟨p1 ++ (p2 ++ p3), "EPSG:4326"⟩, 3⟩ ∧
        (p1 ++ (p2 ++ p3)).length = 4437) := by
  refine ⟨?_, ?_, ?_⟩
  · intro P w ps lastPage rest hP hfull hne hlt
    constructor
    · have hrw : (ps ++ [lastPage]).map validPage ++ rest
          = ps.map validPage ++ (validPage lastPage :: rest) := by
        simp
      rw [hrw, fetch_all_pages_short P w ps lastPage rest hP hfull hne hlt]
      simp
    · have hl := flatten_length_of_full P ps hfull
      simp [List.flatten_append, hl]
  · intro P w ps rest hP hfull
    exact ⟨fetch_all_pages_empty P w ps rest hP hfull,
      flatten_length_of_full P ps hfull⟩
  · intro w p1 p2 p3 rest h1 h2 h3
    have hfull : ∀ p ∈ [p1, p2], p.length = 2000 := by
      intro p hp
      rcases List.mem_cons.mp hp with rfl | hp
      · exact h1
      rcases List.mem_cons.mp hp with rfl | hp
      · exact h2
      cases hp
    have h := fetch_all_pages_short 2000 w [p1, p2] p3 rest (by decide) hfull
      (by omega) (by omega)
    constructor
    · simpa using h
    · simp [h1, h2, h3]

/-- C1 witness: two pages `[f, f], [g]` at page size 2. -/
theorem fetch_all_complete_pagination_witness :
    fetch_all 2 "1=1"
        (([[sampleFeature1, sampleFeature2]] ++ [[goodRow]]).map validPage ++ [])
      = .ok ⟨⟨([[sampleFeature1, sampleFeature2]] ++ [[goodRow]]).flatten,
           "EPSG:4326"⟩, 2⟩ ∧
    (([[sampleFeature1, sampleFeature2]] ++ [[goodRow]]).flatten).length =
      1 * 2 + 1 :=
  fetch_all_complete_pagination.1 2 "1=1" [[sampleFeature1, sampleFeature2]]
    [goodRow] [] (by decide)
    (by intro p hp; rw [List.mem_singleton] at hp; subst hp; rfl)
    (by decide) (by decide)

/-- C6: if any page request times out or yields a non-success (4xx/5xx)
HTTP status — here after any number of successfully served full pages —
`fetch_all` raises: it returns an error carrying no table, no partial
result, and consumes nothing after the failed exchange (no retry). -/
theorem fetch_all_aborts_on_failure (P : Nat) (w : String)
    (ps : List (List Feature)) (bad : HttpResult) (rest : List HttpResult)
    (hP : 0 < P) (hfull : ∀ p ∈ ps, p.length = P)
    (hbad : bad = HttpResult.timeout ∨
      ∃ status body, bad = HttpResult.response status body ∧
        400 ≤ status ∧ status < 600) :
    ∃ e : RunError,
      fetch_all P w (ps.map validPage ++ (bad :: rest)) = .error e ∧
      (bad = HttpResult.timeout → e = RunError.timeoutError) ∧
      (∀ status body, bad = HttpResult.response status body →
        e = RunError.httpError status) := by
  rcases hbad with rfl | ⟨status, body, rfl, hst, hub⟩
  · refine ⟨.timeoutError, ?_, fun _ => rfl, ?_⟩
    · apply fetch_all_of_loop_error
      rw [map_validPage_eq,
        fetchLoop_fullPages P _ (valid_pages_lengths P ps hfull) hP]
      rfl
    · intro s b hsb
      cases hsb
  · refine ⟨.httpError status, ?_, ?_, ?_⟩
    · apply fetch_all_of_loop_error
      rw [map_validPage_eq,
        fetchLoop_fullPages P _ (valid_pages_lengths P ps hfull) hP]
      have hrs : raise_for_status status = true := by
        unfold raise_for_status
        rw [decide_eq_true hst, decide_eq_true hub]
        rfl
      simp [fetchLoop, hrs]
    · intro h
      cases h
    · intro s b h
      injection h with h1 h2
      subst h1
      rfl

/-- C6 witness: a single 500 response aborts with an HTTP error. -/
theorem fetch_all_aborts_on_failure_witness :
    fetch_all 2 "1=1" [HttpResult.response 500 none] =
      .error (RunError.httpError 500) := by
  obtain ⟨e, he, -, hresp⟩ :=
    fetch_all_aborts_on_failure 2 "1=1" [] (.response 500 none) [] (by decide)
      (by intro p hp; cases hp) (Or.inr ⟨500, none, rfl, by decide⟩)
  rw [hresp 500 none rfl] at he
  simpa using he

/-- C7: whenever materialization succeeds, the table has exactly one row per
accumulator entry, in accumulator (= server return) order; a run over
served pages produces rows equal to the concatenation of the pages in
order; and no deduplication occurs: the same record arriving on two pages
occupies two rows. -/
theorem fetch_all_accumulator_invariants :
    (∀ (fs : List FeatureJson) (rows : List Feature),
       from_features fs = .ok rows →
       rows.length = fs.length ∧ fs = rows.map FeatureJson.valid)
    ∧ (∀ (P : Nat) (w : String) (ps : List (List Feature))
        (rest : List HttpResult),
        0 < P → (∀ p ∈ ps, p.length = P) →
        ∃ out : FetchOutcome,
          fetch_all P w (ps.map validPage ++ (emptyPage :: rest)) = .ok out ∧
          out.table.rows = ps.flatten)
    ∧ (∀ (f : Feature) (w : String),
        fetch_all 1 w [validPage [f], validPage [f], emptyPage] =
          .ok ⟨⟨[f, f], "EPSG:4326"⟩, 3⟩) := by
  refine ⟨?_, ?_, ?_⟩
  · intro fs rows h
    have heq := from_features_ok fs rows h
    constructor
    · rw [heq]
      simp
    · exact heq
  · intro P w ps rest hP hfull
    exact ⟨_, fetch_all_pages_empty P w ps rest hP hfull, rfl⟩
  · intro f w
    have hfull : ∀ p ∈ [[f], [f]], p.length = 1 := by
      intro p hp
      rcases List.mem_cons.mp hp with rfl | hp
      · rfl
      rcases List.mem_cons.mp hp with rfl | hp
      · rfl
      cases hp
    have h := fetch_all_pages_empty 1 w [[f], [f]] [] (by decide) hfull
    simpa using h

/-- C7 witness: one full page of two records at page size 2, then an empty
page: the table rows are the page contents in order. -/
theorem fetch_all_accumulator_invariants_witness :
    ∃ out : FetchOutcome,
      fetch_all 2 "1=1"
          ([[goodRow, nullGeomRow]].map validPage ++ (emptyPage :: [])) =
        .ok out ∧
      out.table.rows = [[goodRow, nullGeomRow]].flatten :=
  fetch_all_accumulator_invariants.2.1 2 "1=1" [[goodRow, nullGeomRow]] []
    (by decide)
    (by intro p hp; rw [List.mem_singleton] at hp; subst hp; rfl)

/-- C10: `fetch_all` is deterministic in its environment — identical page
size, where-clause, and mocked response sequence give identical results,
hence identical rows, order, CRS tag and request count. -/
theorem fetch_all_deterministic (P1 P2 : Nat) (w1 w2 : String)
    (rs1 rs2 : List HttpResult) (hP : P1 = P2) (hw : w1 = w2)
    (hrs : rs1 = rs2) :
    fetch_all P1 w1 rs1 = fetch_all P2 w2 rs2 ∧
    (∀ o1 o2 : FetchOutcome,
      fetch_all P1 w1 rs1 = .ok o1 → fetch_all P2 w2 rs2 = .ok o2 →
      o1.table.rows = o2.table.rows ∧ o1.table.crs = o2.table.crs ∧
      o1.requests = o2.requests) := by
  subst hP
  subst hw
  subst hrs
  refine ⟨rfl, ?_⟩
  intro o1 o2 h1 h2
  rw [h1] at h2
  injection h2 with h
  subst h
  exact ⟨rfl, rfl, rfl⟩

/-- C10 witness: two identical runs on a one-page mock coincide. -/
theorem fetch_all_deterministic_witness :
    fetch_all 3 "1=1" [emptyPage] = fetch_all 3 "1=1" [emptyPage] :=
  (fetch_all_deterministic 3 3 "1=1" "1=1" [emptyPage] [emptyPage]
    rfl rfl rfl).1

/-- Row-level reading of the boolean mask. -/
theorem rowKept_iff (r : Feature) :
    rowKept r = true ↔
      geomIsEmpty r.geometry = false ∧
      r.props.lookup "LOC_ERROR" = some "NO ERROR" := by
  simp [rowKept, Bool.and_eq_true, Bool.not_eq_true', beq_iff_eq]

/-- Membership in the cleaned table. -/
theorem mem_cleanFilter (g : GeoDataFrame) (r : Feature) :
    r ∈ (cleanFilter g).rows ↔
      (r ∈ g.rows ∧ geomIsEmpty r.geometry = false ∧
       r.props.lookup "LOC_ERROR" = some "NO ERROR") := by
  rw [cleanFilter, List.mem_filter, rowKept_iff]

/-- C3: the cleaning filter removes every row with empty geometry and every
row whose `LOC_ERROR` is not exactly `"NO ERROR"`, and keeps every other
row unchanged and in relative order (the output is a sublist of the input
characterized by the mask); in particular a row with empty geometry and a
row with `LOC_ERROR = "LOCATION ERROR"` are both absent from the filtered
sample table while its clean row survives. -/
theorem clean_filter_removes_invalid_rows :
    (∀ g : GeoDataFrame,
        ((cleanFilter g).rows.Sublist g.rows) ∧
        (cleanFilter g).crs = g.crs ∧
        (∀ r : Feature, geomIsEmpty r.geometry = true →
          r ∉ (cleanFilter g).rows) ∧
        (∀ r : Feature, r.props.lookup "LOC_ERROR" ≠ some "NO ERROR" →
          r ∉ (cleanFilter g).rows) ∧
        (∀ r : Feature, r ∈ (cleanFilter g).rows ↔
          (r ∈ g.rows ∧ geomIsEmpty r.geometry = false ∧
           r.props.lookup "LOC_ERROR" = some "NO ERROR")))
    ∧ ((cleanFilter sampleTable).rows = [goodRow] ∧
       emptyGeomRow ∉ (cleanFilter sampleTable).rows ∧
       locErrorRow ∉ (cleanFilter sampleTable).rows) := by
  refine ⟨fun g => ⟨List.filter_sublist _, rfl, ?_, ?_, mem_cleanFilter g⟩,
    by decide, by decide, by decide⟩
  · intro r hr hmem
    rcases (mem_cleanFilter g r).mp hmem with ⟨-, hfalse, -⟩
    rw [hr] at hfalse
    cases hfalse
  · intro r hr hmem
    exact hr ((mem_cleanFilter g r).mp hmem).2.2

/-- C3 witness: the empty-geometry row is gone from the filtered sample. -/
theorem clean_filter_removes_invalid_rows_witness :
    emptyGeomRow ∉ (cleanFilter sampleTable).rows :=
  (clean_filter_removes_invalid_rows.1 sampleTable).2.2.1 emptyGeomRow
    (by decide)

/-- C4 counterexample: the claim says a row with null/missing geometry is
excluded even when `LOC_ERROR = "NO ERROR"`; but `is_empty` is `False` on a
missing geometry, so the mask keeps such a row and the filter retains it. -/
theorem clean_filter_retains_null_geometry :
    nullGeomRow.geometry = none ∧
    nullGeomRow.props.lookup "LOC_ERROR" = some "NO ERROR" ∧
    cleanFilter ⟨[nullGeomRow], "EPSG:4326"⟩ =
      ⟨[nullGeomRow], "EPSG:4326"⟩ ∧
    nullGeomRow ∈ (cleanFilter ⟨[nullGeomRow], "EPSG:4326"⟩).rows := by
  refine ⟨rfl, rfl, by decide, by decide⟩

/-- C4 (amended): every row retained by the cleaning filter passes the
emptiness test — so a present geometry is necessarily non-empty — and has
`LOC_ERROR` exactly `"NO ERROR"`; but a null/missing geometry also passes
the test (it is not empty), so such rows are retained, not excluded. -/
theorem clean_filter_retained_rows_amended (g : GeoDataFrame) (r : Feature)
    (h : r ∈ (cleanFilter g).rows) :
    geomIsEmpty r.geometry = false ∧
    (∀ geom : Geometry, r.geometry = some geom → geom.isEmpty = false) ∧
    r.props.lookup "LOC_ERROR" = some "NO ERROR" := by
  rcases (mem_cleanFilter g r).mp h with ⟨-, hempty, hloc⟩
  refine ⟨hempty, ?_, hloc⟩
  intro geom hg
  rw [hg] at hempty
  simpa [geomIsEmpty] using hempty

/-- C4 witness: the retained clean row has non-empty geometry and the
sentinel `LOC_ERROR`. -/
theorem clean_filter_retained_rows_amended_witness :
    geomIsEmpty goodRow.geometry = false ∧
    goodRow.props.lookup "LOC_ERROR" = some "NO ERROR" :=
  ⟨(clean_filter_retained_rows_amended ⟨[goodRow], "EPSG:4326"⟩ goodRow
      (by decide)).1,
   (clean_filter_retained_rows_amended ⟨[goodRow], "EPSG:4326"⟩ goodRow
      (by decide)).2.2⟩

/-- C5: the cleaning filter is idempotent — filtering twice equals filtering
once on every table — and an already-clean table (non-empty geometry and
sentinel `LOC_ERROR` on every row) is returned unchanged. -/
theorem clean_filter_idempotent :
    (∀ g : GeoDataFrame, cleanFilter (cleanFilter g) = cleanFilter g)
    ∧ (∀ g : GeoDataFrame,
        (∀ r ∈ g.rows, geomIsEmpty r.geometry = false ∧
          r.props.lookup "LOC_ERROR" = some "NO ERROR") →
        cleanFilter g = g) := by
  constructor
  · intro g
    cases g with
    | mk rows crs => simp [cleanFilter, List.filter_filter]
  · intro g h
    have hall : g.rows.filter rowKept = g.rows := by
      apply List.filter_eq_self.mpr
      intro r hr
      exact (rowKept_iff r).mpr (h r hr)
    cases g with
    | mk rows crs =>
      simp only [cleanFilter] at hall ⊢
      rw [hall]

/-- C5 witness: a concrete already-clean one-row table is left unchanged. -/
theorem clean_filter_idempotent_witness :
    cleanFilter ⟨[goodRow], "EPSG:4326"⟩ = ⟨[goodRow], "EPSG:4326"⟩ :=
  clean_filter_idempotent.2 ⟨[goodRow], "EPSG:4326"⟩ (by decide)

/-- C8: there are successful (status 200) responses with a malformed body on
which the run fails rather than `fetch_all` returning a table: a body whose
feature entry `from_features` cannot interpret fails while building the
table, and a body that is not valid JSON fails at `r.json()`. -/
theorem fetch_all_malformed_body_errors :
    fetch_all 2000 "1=1"
        [HttpResult.response 200 (some ⟨some [FeatureJson.invalid]⟩)] =
      .error RunError.constructionError ∧
    fetch_all 2000 "1=1" [HttpResult.response 200 none] =
      .error RunError.jsonDecodeError := by
  constructor
  · rfl
  · rfl

end IngestWorkProgram
